import Mathlib

/-!
Shallow embedding of `tint_grass.py`: a Minecraft grass-texture tinting
utility.  The program clamps biome parameters, samples a 256x256 colormap,
multiplies grayscale textures by the sampled color via Rec.601 luminance,
alpha-composites the tinted side overlay onto a base texture, and writes
two PNG files.  Real numbers computed by the program (Python floats /
numpy float32) are modelled by exact rationals; the decisive evaluations
(white pixel luma, half-integer rounding at 127.5, two-decimal formatting
of the claimed inputs) are exact in both arithmetics.  Machine `uint8`
casts (`astype(np.uint8)` on values already in [0,255]) are modelled by
`Int.floor`.  Python's `round` is round-half-to-even on floats, modelled
by `pyRound`.
-/

namespace TintGrass

/-- `clamp01` from tint_grass.py line 9-10: `max(0.0, min(1.0, float(x)))`. -/
def clamp01 (x : ℚ) : ℚ := max 0 (min 1 x)

/-- Python's builtin `round` on a float: round half to even (banker's
rounding), returning an integer. -/
def pyRound (x : ℚ) : ℤ :=
  if x - ⌊x⌋ < 1/2 then ⌊x⌋
  else if 1/2 < x - ⌊x⌋ then ⌊x⌋ + 1
  else if ⌊x⌋ % 2 = 0 then ⌊x⌋ else ⌊x⌋ + 1

/-- An RGB triple as returned by `sample_biome_color` (channels 0..255). -/
structure RGB where
  r : ℕ
  g : ℕ
  b : ℕ
deriving DecidableEq

/-- One RGBA pixel (8-bit channels, stored as naturals). -/
structure RGBA where
  r : ℕ
  g : ℕ
  b : ℕ
  a : ℕ
deriving DecidableEq

/-- An image after RGBA normalisation (`img.convert("RGBA")`): width,
height, and a pixel function indexed numpy-style as `pix row col`,
i.e. `pix y x` matches `arr[y, x]` in the source. -/
structure Img where
  w : ℕ
  h : ℕ
  pix : ℕ → ℕ → RGBA

/-- The x image coordinate computed in `sample_biome_color` line 25:
`int(round(255 - (t * 255)))` with `t = clamp01(temperature)`. -/
def x_img (temperature : ℚ) : ℤ :=
  pyRound (255 - clamp01 temperature * 255)

/-- The y image coordinate computed in `sample_biome_color` line 26:
`int(round(255 - (d_proj * 255)))` with `d_proj = d * t` for the clamped
parameters. -/
def y_img (temperature downfall : ℚ) : ℤ :=
  pyRound (255 - clamp01 downfall * clamp01 temperature * 255)

/-- The coordinate clamp of `sample_biome_color` lines 27-28:
`max(0, min(255, z))`. -/
def clampCoord (z : ℤ) : ℤ := max 0 (min 255 z)

/-- `sample_biome_color` from tint_grass.py lines 12-31: clamp the biome
parameters, project downfall by temperature, convert to image
coordinates (origin top-left), clamp the coordinates, and return the RGB
value of the colormap at `[y, x]`. -/
def sample_biome_color (cmap : Img) (temperature downfall : ℚ) : RGB :=
  let p := cmap.pix (clampCoord (y_img temperature downfall)).toNat
                    (clampCoord (x_img temperature)).toNat
  ⟨p.r, p.g, p.b⟩

/-- Rec.601 luma of a pixel, line 44: `0.299*R + 0.587*G + 0.114*B`. -/
def luma (p : RGBA) : ℚ := (299 * p.r + 587 * p.g + 114 * p.b : ℚ) / 1000

/-- `np.clip(v, 0.0, 1.0) = min(max(v, 0), 1)`. -/
def clip01 (x : ℚ) : ℚ := min 1 (max 0 x)

/-- One output channel of the tinter, lines 47-49:
`np.clip(lum_norm * biome_channel/255, 0, 1) * 255` cast to `uint8`
(truncation; the value is already nonnegative, so `Int.floor`). -/
def tintChannel (lumNorm : ℚ) (c : ℕ) : ℕ :=
  (⌊clip01 (lumNorm * ((c : ℚ) / 255)) * 255⌋).toNat

/-- `tint_grayscale_rgba` from tint_grass.py lines 33-52: multiply the
image's normalised Rec.601 luminance by the biome color per channel,
clip to [0,1], scale back to 8 bits; alpha is concatenated unchanged. -/
def tint_grayscale_rgba (img : Img) (biome : RGB) : Img :=
  { w := img.w
    h := img.h
    pix := fun y x =>
      let p := img.pix y x
      let lumNorm := luma p / 255
      ⟨tintChannel lumNorm biome.r,
       tintChannel lumNorm biome.g,
       tintChannel lumNorm biome.b,
       p.a⟩ }

/-- PIL `Image.resize(size, Image.NEAREST)`: each destination pixel
samples the source pixel whose center is nearest, i.e. source index
`floor((i + 0.5) * src_extent / dst_extent)`. -/
def resizeNearest (img : Img) (w h : ℕ) : Img :=
  { w := w
    h := h
    pix := fun y x => img.pix ((2 * y + 1) * img.h / (2 * h)) ((2 * x + 1) * img.w / (2 * w)) }

/-- PIL `Image.alpha_composite(base, overlay)`: the conventional "over"
operator on straight-alpha RGBA, computed here in exact rationals with
rounding of the final 8-bit channels. Output size is the base's size. -/
def alpha_composite (base overlay : Img) : Img :=
  { w := base.w
    h := base.h
    pix := fun y x =>
      let pb := base.pix y x
      let po := overlay.pix y x
      let ao : ℚ := (po.a : ℚ) / 255
      let ab : ℚ := (pb.a : ℚ) / 255
      let aOut : ℚ := ao + ab * (1 - ao)
      let ch : ℕ → ℕ → ℕ := fun co cb =>
        if aOut = 0 then 0
        else (pyRound ((co * ao + cb * ab * (1 - ao)) / aOut)).toNat
      ⟨ch po.r pb.r, ch po.g pb.g, ch po.b pb.b, (pyRound (aOut * 255)).toNat⟩ }

/-- `composite_overlay_onto_base` from tint_grass.py lines 54-61:
resize the overlay to the base's size with NEAREST when the sizes
differ, then alpha-composite it over the base. -/
def composite_overlay_onto_base (base overlay : Img) : Img :=
  let ov := if overlay.w = base.w ∧ overlay.h = base.h then overlay
            else resizeNearest overlay base.w base.h
  alpha_composite base ov

/-- Two decimal digits with a leading zero, as produced by `%.2f` for
the fractional part. -/
def twoDigits (n : ℕ) : String := (if n < 10 then "0" else "") ++ toString n

/-- Python `f"{x:.2f}"`: format with exactly two decimals, rounding
half to even (the decimal value of the claimed inputs is exact, so the
rational model agrees with the float64 behaviour there). -/
def fmt2 (x : ℚ) : String :=
  let n : ℤ := pyRound (x * 100)
  let sign := if n < 0 then "-" else ""
  let m := n.natAbs
  sign ++ toString (m / 100) ++ "." ++ twoDigits (m % 100)

/-- Python `str.rstrip(c)`: drop trailing occurrences of one character. -/
def rstrip (c : Char) (s : String) : String :=
  ⟨(s.data.reverse.dropWhile (fun ch => ch = c)).reverse⟩

/-- The filename parameter formatting of tint_grass.py lines 95-96:
`f"{x:.2f}".rstrip("0").rstrip(".")`. -/
def fmtParam (x : ℚ) : String := rstrip '.' (rstrip '0' (fmt2 x))

/-- The parsed CLI arguments that `main` consumes (tint_grass.py
lines 67-75). -/
structure Args where
  top : String
  side_overlay : String
  side_base : String
  colormap : String
  temperature : ℚ
  downfall : ℚ
  out_top : Option String
  out_side : Option String

/-- The ambient file system seen by `main`: which paths name existing
files (`os.path.isfile`) and the decoded RGBA-normalised image stored
at each path (`Image.open`). -/
structure FS where
  isfile : String → Bool
  image : String → Img

/-- `main` from tint_grass.py lines 63-116, modelled as a pure function
from the file system and arguments to the exit status together with the
list of `(path, image)` writes performed.  The source exits with status
1 before any processing when one of the four input paths is missing
(lines 78-81) or when the colormap is not exactly 256x256 (lines
83-86); otherwise it samples the biome color once, tints the top
texture, tints the side overlay and composites it onto the side base,
and writes the two results under default names built with `fmtParam`. -/
def main (fs : FS) (args : Args) : ℕ × List (String × Img) :=
  if [args.top, args.side_overlay, args.side_base, args.colormap].any
      (fun p => !(fs.isfile p)) then
    (1, [])
  else
    let cmap := fs.image args.colormap
    if cmap.w = 256 ∧ cmap.h = 256 then
      let biome_rgb := sample_biome_color cmap args.temperature args.downfall
      let suffix := fmtParam args.temperature ++ "_" ++ fmtParam args.downfall
      let top_coloured := tint_grayscale_rgba (fs.image args.top) biome_rgb
      let out_top := args.out_top.getD ("out/grass_block_top_" ++ suffix ++ ".png")
      let overlay_coloured := tint_grayscale_rgba (fs.image args.side_overlay) biome_rgb
      let side_coloured := composite_overlay_onto_base (fs.image args.side_base) overlay_coloured
      let out_side := args.out_side.getD ("out/grass_block_side_" ++ suffix ++ ".png")
      (0, [(out_top, top_coloured), (out_side, side_coloured)])
    else
      (1, [])

/-! Helper lemmas about the numeric building blocks. -/

lemma clamp01_nonneg (x : ℚ) : 0 ≤ clamp01 x := le_max_left 0 _

lemma clamp01_le_one (x : ℚ) : clamp01 x ≤ 1 := by
  unfold clamp01
  rcases le_total 1 x with h | h
  · simp [min_eq_left h]
  · exact max_le (by norm_num) (min_le_left 1 x)

lemma clamp01_eq_self {x : ℚ} (h0 : 0 ≤ x) (h1 : x ≤ 1) : clamp01 x = x := by
  unfold clamp01
  rw [min_eq_right h1, max_eq_right h0]

lemma clamp01_idem (x : ℚ) : clamp01 (clamp01 x) = clamp01 x :=
  clamp01_eq_self (clamp01_nonneg x) (clamp01_le_one x)

lemma le_pyRound {n : ℤ} {x : ℚ} (h : (n : ℚ) ≤ x) : n ≤ pyRound x := by
  have hf : n ≤ ⌊x⌋ := Int.le_floor.mpr h
  unfold pyRound
  split
  · exact hf
  · split
    · omega
    · split <;> omega

lemma pyRound_le {n : ℤ} {x : ℚ} (h : x ≤ (n : ℚ)) : pyRound x ≤ n := by
  have hf : ⌊x⌋ ≤ n := Int.floor_le_floor h |>.trans_eq (Int.floor_intCast n)
  unfold pyRound
  split
  · exact hf
  · rename_i hlt
    have hne : ⌊x⌋ ≠ n := by
      intro he
      apply hlt
      have hxn : x ≤ (⌊x⌋ : ℚ) := by rw [he]; exact h
      have : x - ⌊x⌋ ≤ 0 := by linarith
      linarith
    split
    · omega
    · split <;> omega

lemma x_img_nonneg (t : ℚ) : 0 ≤ x_img t := by
  refine le_pyRound ?_
  have := clamp01_le_one t
  push_cast
  nlinarith [clamp01_nonneg t]

lemma x_img_le (t : ℚ) : x_img t ≤ 255 := by
  refine pyRound_le ?_
  have := clamp01_nonneg t
  push_cast
  nlinarith

lemma proj_nonneg (t d : ℚ) : 0 ≤ clamp01 d * clamp01 t :=
  mul_nonneg (clamp01_nonneg d) (clamp01_nonneg t)

lemma proj_le_one (t d : ℚ) : clamp01 d * clamp01 t ≤ 1 :=
  mul_le_one₀ (clamp01_le_one d) (clamp01_nonneg t) (clamp01_le_one t)

lemma y_img_nonneg (t d : ℚ) : 0 ≤ y_img t d := by
  refine le_pyRound ?_
  have := proj_le_one t d
  push_cast
  nlinarith

lemma y_img_le (t d : ℚ) : y_img t d ≤ 255 := by
  refine pyRound_le ?_
  have := proj_nonneg t d
  push_cast
  nlinarith

lemma clampCoord_eq_self {z : ℤ} (h0 : 0 ≤ z) (h1 : z ≤ 255) : clampCoord z = z := by
  unfold clampCoord
  rw [min_eq_right h1, max_eq_right h0]

lemma clampCoord_x_img (t : ℚ) : clampCoord (x_img t) = x_img t :=
  clampCoord_eq_self (x_img_nonneg t) (x_img_le t)

lemma clampCoord_y_img (t d : ℚ) : clampCoord (y_img t d) = y_img t d :=
  clampCoord_eq_self (y_img_nonneg t d) (y_img_le t d)

lemma luma_nonneg (p : RGBA) : 0 ≤ luma p := by
  unfold luma
  positivity

lemma luma_le_255 {p : RGBA} (hr : p.r ≤ 255) (hg : p.g ≤ 255) (hb : p.b ≤ 255) :
    luma p ≤ 255 := by
  unfold luma
  rw [div_le_iff₀ (by norm_num : (0:ℚ) < 1000)]
  have hr' : (p.r : ℚ) ≤ 255 := by exact_mod_cast hr
  have hg' : (p.g : ℚ) ≤ 255 := by exact_mod_cast hg
  have hb' : (p.b : ℚ) ≤ 255 := by exact_mod_cast hb
  nlinarith

lemma tintChannel_le {lumNorm : ℚ} (h0 : 0 ≤ lumNorm) (h1 : lumNorm ≤ 1) (c : ℕ) :
    tintChannel lumNorm c ≤ c := by
  unfold tintChannel clip01
  set v : ℚ := lumNorm * ((c : ℚ) / 255) with hv
  have hv0 : 0 ≤ v := by positivity
  rw [max_eq_right hv0]
  have hvc : v * 255 ≤ (c : ℚ) := by
    have : v * 255 = lumNorm * c := by field_simp [hv]
    rw [this]
    nlinarith [Nat.cast_nonneg (α := ℚ) c]
  rcases le_total v 1 with hle | hgt
  · rw [min_eq_right hle]
    have : ⌊v * 255⌋ ≤ (c : ℤ) := by
      exact (Int.floor_le_floor hvc).trans_eq (Int.floor_natCast c)
    omega
  · rw [min_eq_left hgt]
    have h255 : (255 : ℚ) ≤ (c : ℚ) := by nlinarith
    have hc : (255 : ℕ) ≤ c := by exact_mod_cast h255
    have : ⌊(1 : ℚ) * 255⌋ = (255 : ℤ) := by norm_num
    rw [this]
    omega

lemma tintChannel_one {c : ℕ} (hc : c ≤ 255) : tintChannel 1 c = c := by
  unfold tintChannel clip01
  have hc' : (c : ℚ) ≤ 255 := by exact_mod_cast hc
  have h1 : (1 : ℚ) * ((c : ℚ) / 255) = (c : ℚ) / 255 := one_mul _
  rw [h1]
  have h0 : (0 : ℚ) ≤ (c : ℚ) / 255 := by positivity
  have hle : (c : ℚ) / 255 ≤ 1 := by
    rw [div_le_one (by norm_num : (0:ℚ) < 255)]; exact hc'
  rw [max_eq_right h0, min_eq_right hle]
  have : (c : ℚ) / 255 * 255 = (c : ℚ) := by field_simp
  rw [this, Int.floor_natCast]
  exact Int.toNat_natCast c

lemma sample_biome_color_clamp (cmap : Img) (t d : ℚ) :
    sample_biome_color cmap t d = sample_biome_color cmap (clamp01 t) (clamp01 d) := by
  unfold sample_biome_color y_img x_img
  rw [clamp01_idem, clamp01_idem]

/-- Claim C2: for every tint color c (8-bit channels) and every input
image, the tinter maps each pure-white input pixel (R=G=B=255) to output
RGB exactly equal to c at that pixel. -/
theorem C2_white_pixel_becomes_tint (img : Img) (c : RGB) (y x : ℕ)
    (hcr : c.r ≤ 255) (hcg : c.g ≤ 255) (hcb : c.b ≤ 255)
    (hr : (img.pix y x).r = 255) (hg : (img.pix y x).g = 255)
    (hb : (img.pix y x).b = 255) :
    ((tint_grayscale_rgba img c).pix y x).r = c.r ∧
    ((tint_grayscale_rgba img c).pix y x).g = c.g ∧
    ((tint_grayscale_rgba img c).pix y x).b = c.b := by
  have hl : luma (img.pix y x) = 255 := by
    unfold luma
    rw [hr, hg, hb]
    norm_num
  have hln : luma (img.pix y x) / 255 = 1 := by rw [hl]; norm_num
  have e : (tint_grayscale_rgba img c).pix y x =
      ⟨tintChannel (luma (img.pix y x) / 255) c.r,
       tintChannel (luma (img.pix y x) / 255) c.g,
       tintChannel (luma (img.pix y x) / 255) c.b,
       (img.pix y x).a⟩ := rfl
  rw [e, hln]
  exact ⟨tintChannel_one hcr, tintChannel_one hcg, tintChannel_one hcb⟩

/-- The all-white 1x1 test image. -/
def whiteImg : Img := ⟨1, 1, fun _ _ => ⟨255, 255, 255, 137⟩⟩

/-- Witness for C2: tint (255,255,255) on a (255,255,255) pixel yields
RGB (255,255,255). -/
theorem C2_witness :
    ((tint_grayscale_rgba whiteImg ⟨255, 255, 255⟩).pix 0 0).r = 255 ∧
    ((tint_grayscale_rgba whiteImg ⟨255, 255, 255⟩).pix 0 0).g = 255 ∧
    ((tint_grayscale_rgba whiteImg ⟨255, 255, 255⟩).pix 0 0).b = 255 :=
  C2_white_pixel_becomes_tint whiteImg ⟨255, 255, 255⟩ 0 0
    (by decide) (by decide) (by decide) rfl rfl rfl

/-- Claim C3: for every input image and tint color, the tinter's output
has the input's dimensions and its alpha channel equals the input's
alpha channel pixel-for-pixel. -/
theorem C3_tint_preserves_dims_and_alpha (img : Img) (c : RGB) :
    (tint_grayscale_rgba img c).w = img.w ∧
    (tint_grayscale_rgba img c).h = img.h ∧
    ∀ y x, ((tint_grayscale_rgba img c).pix y x).a = (img.pix y x).a :=
  ⟨rfl, rfl, fun _ _ => rfl⟩

/-- Claim C4: the sampler clamps temperature and downfall to [0,1]
before use, so sampling with out-of-range inputs equals sampling with
the clamped inputs; in particular sample(cmap, 1.5, -0.3) equals
sample(cmap, 1.0, 0.0). -/
theorem C4_sample_clamps_inputs (cmap : Img) (t d : ℚ) :
    sample_biome_color cmap t d = sample_biome_color cmap (clamp01 t) (clamp01 d) ∧
    sample_biome_color cmap (3/2) (-(3/10)) = sample_biome_color cmap 1 0 := by
  refine ⟨sample_biome_color_clamp cmap t d, ?_⟩
  have h1 : clamp01 (3/2 : ℚ) = 1 := by norm_num [clamp01, min_def, max_def]
  have h2 : clamp01 (-(3/10) : ℚ) = 0 := by norm_num [clamp01, min_def, max_def]
  rw [sample_biome_color_clamp cmap (3/2) (-(3/10)), h1, h2]

/-- Claim C8: for temperature and downfall in [0,1], the effective
downfall computed by the sampler (`d_proj = clamp01 d * clamp01 t`) is
at most the temperature. -/
theorem C8_downfall_effective_le_temperature (t d : ℚ)
    (ht0 : 0 ≤ t) (ht1 : t ≤ 1) (hd0 : 0 ≤ d) (hd1 : d ≤ 1) :
    clamp01 d * clamp01 t ≤ t := by
  rw [clamp01_eq_self hd0 hd1, clamp01_eq_self ht0 ht1]
  nlinarith

/-- Witness for C8 at temperature 1/3, downfall 1. -/
theorem C8_witness :
    (0:ℚ) ≤ 1/3 ∧ (1/3:ℚ) ≤ 1 ∧ (0:ℚ) ≤ 1 ∧ (1:ℚ) ≤ 1 ∧
    clamp01 1 * clamp01 (1/3) ≤ (1/3 : ℚ) :=
  ⟨by norm_num, by norm_num, by norm_num, le_refl 1,
   C8_downfall_effective_le_temperature (1/3) 1
     (by norm_num) (by norm_num) (by norm_num) (le_refl 1)⟩

lemma x_img_half : x_img (1/2) = 128 := by
  unfold x_img pyRound clamp01
  norm_num [min_def, max_def]

lemma y_img_half_one : y_img (1/2) 1 = 128 := by
  unfold y_img pyRound clamp01
  norm_num [min_def, max_def]

/-- Claim C5: the sampler's pixel coordinates are
`x = round(255 - t*255)` and `y = round(255 - d_proj*255)` (for the
clamped parameters) and the result is exactly the colormap's pixel
there (the final coordinate clamp is the identity); for temperature 1/2
and downfall 1 both coordinates are 128 and the result is the colormap
pixel at (128,128). -/
theorem C5_sample_pixel_formula (cmap : Img) (t d : ℚ) :
    sample_biome_color cmap t d =
      ⟨(cmap.pix (y_img t d).toNat (x_img t).toNat).r,
       (cmap.pix (y_img t d).toNat (x_img t).toNat).g,
       (cmap.pix (y_img t d).toNat (x_img t).toNat).b⟩ ∧
    x_img (1/2) = 128 ∧ y_img (1/2) 1 = 128 ∧
    sample_biome_color cmap (1/2) 1 =
      ⟨(cmap.pix 128 128).r, (cmap.pix 128 128).g, (cmap.pix 128 128).b⟩ := by
  have key : ∀ t' d', sample_biome_color cmap t' d' =
      ⟨(cmap.pix (y_img t' d').toNat (x_img t').toNat).r,
       (cmap.pix (y_img t' d').toNat (x_img t').toNat).g,
       (cmap.pix (y_img t' d').toNat (x_img t').toNat).b⟩ := by
    intro t' d'
    unfold sample_biome_color
    rw [clampCoord_x_img, clampCoord_y_img]
  refine ⟨key t d, x_img_half, y_img_half_one, ?_⟩
  rw [key (1/2) 1, x_img_half, y_img_half_one]
  rfl

lemma clampCoord_nonneg (z : ℤ) : 0 ≤ clampCoord z := le_max_left 0 _

lemma clampCoord_le_255 (z : ℤ) : clampCoord z ≤ 255 :=
  max_le (by norm_num) (min_le_left 255 z)

/-- Claim C9: after the final clamp the sampler's pixel coordinates
always lie in [0,255] — for all rational inputs, however far outside
[0,1] — so the colormap lookup indices are in bounds and the sampler
always returns the pixel at those indices. -/
theorem C9_sample_always_in_bounds (cmap : Img) (t d : ℚ) :
    0 ≤ clampCoord (x_img t) ∧ clampCoord (x_img t) ≤ 255 ∧
    0 ≤ clampCoord (y_img t d) ∧ clampCoord (y_img t d) ≤ 255 ∧
    (clampCoord (x_img t)).toNat ≤ 255 ∧ (clampCoord (y_img t d)).toNat ≤ 255 ∧
    sample_biome_color cmap t d =
      ⟨(cmap.pix (clampCoord (y_img t d)).toNat (clampCoord (x_img t)).toNat).r,
       (cmap.pix (clampCoord (y_img t d)).toNat (clampCoord (x_img t)).toNat).g,
       (cmap.pix (clampCoord (y_img t d)).toNat (clampCoord (x_img t)).toNat).b⟩ := by
  have hx0 := clampCoord_nonneg (x_img t)
  have hx1 := clampCoord_le_255 (x_img t)
  have hy0 := clampCoord_nonneg (y_img t d)
  have hy1 := clampCoord_le_255 (y_img t d)
  exact ⟨hx0, hx1, hy0, hy1, by omega, by omega, rfl⟩

/-- Claim C10: each RGB channel of the tinter's output is at most the
corresponding channel of the tint color, for every 8-bit input pixel. -/
theorem C10_output_channel_le_tint (img : Img) (c : RGB) (y x : ℕ)
    (hr : (img.pix y x).r ≤ 255) (hg : (img.pix y x).g ≤ 255)
    (hb : (img.pix y x).b ≤ 255) :
    ((tint_grayscale_rgba img c).pix y x).r ≤ c.r ∧
    ((tint_grayscale_rgba img c).pix y x).g ≤ c.g ∧
    ((tint_grayscale_rgba img c).pix y x).b ≤ c.b := by
  have h0 : 0 ≤ luma (img.pix y x) / 255 := by
    have := luma_nonneg (img.pix y x)
    positivity
  have h1 : luma (img.pix y x) / 255 ≤ 1 := by
    rw [div_le_one (by norm_num : (0:ℚ) < 255)]
    exact luma_le_255 hr hg hb
  exact ⟨tintChannel_le h0 h1 c.r, tintChannel_le h0 h1 c.g, tintChannel_le h0 h1 c.b⟩

/-- A 1x1 test image with a mixed-color pixel. -/
def mixedImg : Img := ⟨1, 1, fun _ _ => ⟨200, 10, 255, 90⟩⟩

/-- Witness for C10 at a concrete pixel and tint (91,201,59). -/
theorem C10_witness :
    ((tint_grayscale_rgba mixedImg ⟨91, 201, 59⟩).pix 0 0).r ≤ 91 ∧
    ((tint_grayscale_rgba mixedImg ⟨91, 201, 59⟩).pix 0 0).g ≤ 201 ∧
    ((tint_grayscale_rgba mixedImg ⟨91, 201, 59⟩).pix 0 0).b ≤ 59 :=
  C10_output_channel_le_tint mixedImg ⟨91, 201, 59⟩ 0 0
    (by decide) (by decide) (by decide)

/-- Claim C6: the compositor's output always has the base's dimensions,
even when the overlay's dimensions differ; a mismatched overlay goes
through the nearest-neighbor resize to the base's dimensions before the
alpha-compositing "over" step, and the resize itself produces the
base's dimensions. -/
theorem C6_composite_dims_and_resize (base overlay : Img) :
    (composite_overlay_onto_base base overlay).w = base.w ∧
    (composite_overlay_onto_base base overlay).h = base.h ∧
    (resizeNearest overlay base.w base.h).w = base.w ∧
    (resizeNearest overlay base.w base.h).h = base.h ∧
    composite_overlay_onto_base base overlay =
      alpha_composite base
        (if overlay.w = base.w ∧ overlay.h = base.h then overlay
         else resizeNearest overlay base.w base.h) :=
  ⟨rfl, rfl, rfl, rfl, rfl⟩

/-- Claim C1: `main` exits with status 1 and performs no writes
whenever one of the four input paths does not name an existing file, or
the colormap does not decode to exactly 256x256; validation happens
before any processing, so the write list is empty in both cases. -/
theorem C1_validation_failure_exits_1 (fs : FS) (args : Args)
    (h : fs.isfile args.top = false ∨ fs.isfile args.side_overlay = false ∨
         fs.isfile args.side_base = false ∨ fs.isfile args.colormap = false ∨
         ¬((fs.image args.colormap).w = 256 ∧ (fs.image args.colormap).h = 256)) :
    main fs args = (1, []) := by
  by_cases hany : ([args.top, args.side_overlay, args.side_base, args.colormap].any
      (fun p => !(fs.isfile p))) = true
  · unfold main
    rw [if_pos hany]
  · have hall : fs.isfile args.top = true ∧ fs.isfile args.side_overlay = true ∧
        fs.isfile args.side_base = true ∧ fs.isfile args.colormap = true := by
      simp only [List.any_cons, List.any_nil, Bool.or_eq_true, Bool.not_eq_true'] at hany
      push_neg at hany
      refine ⟨?_, ?_, ?_, ?_⟩ <;> simp_all
    have hmap : ¬((fs.image args.colormap).w = 256 ∧ (fs.image args.colormap).h = 256) := by
      rcases h with h | h | h | h | h
      · rw [hall.1] at h; exact absurd h (by simp)
      · rw [hall.2.1] at h; exact absurd h (by simp)
      · rw [hall.2.2.1] at h; exact absurd h (by simp)
      · rw [hall.2.2.2] at h; exact absurd h (by simp)
      · exact h
    unfold main
    rw [if_neg hany, if_neg hmap]

/-- A file system in which no path names an existing file. -/
def emptyFS : FS := ⟨fun _ => false, fun _ => ⟨0, 0, fun _ _ => ⟨0, 0, 0, 0⟩⟩⟩

/-- Concrete CLI arguments used by witnesses. -/
def someArgs : Args := ⟨"top.png", "overlay.png", "base.png", "cmap.png", 1/2, 1/2, none, none⟩

/-- Witness for C1: with every input path missing (in particular the
colormap path), `main` exits with status 1 and writes nothing. -/
theorem C1_witness :
    emptyFS.isfile someArgs.colormap = false ∧ main emptyFS someArgs = (1, []) :=
  ⟨rfl, C1_validation_failure_exits_1 emptyFS someArgs (Or.inr (Or.inr (Or.inr (Or.inl rfl))))⟩

lemma fmtParam_half : fmtParam (1/2) = "0.5" := by
  have h : pyRound ((1/2 : ℚ) * 100) = 50 := by unfold pyRound; norm_num
  simp only [fmtParam, fmt2, h]
  rfl

lemma fmtParam_four_fifths : fmtParam (4/5) = "0.8" := by
  have h : pyRound ((4/5 : ℚ) * 100) = 80 := by unfold pyRound; norm_num
  simp only [fmtParam, fmt2, h]
  rfl

lemma fmtParam_one : fmtParam 1 = "1" := by
  have h : pyRound ((1 : ℚ) * 100) = 100 := by unfold pyRound; norm_num
  simp only [fmtParam, fmt2, h]
  rfl

lemma fmtParam_333 : fmtParam (333/1000) = "0.33" := by
  have h : pyRound ((333/1000 : ℚ) * 100) = 33 := by unfold pyRound; norm_num
  simp only [fmtParam, fmt2, h]
  rfl

/-- Claim C7: default output filenames embed temperature and downfall
formatted to two decimals with trailing zeros and a trailing point
stripped: 0.5 formats as "0.5", 0.80 as "0.8", 1.00 as "1", 0.333 as
"0.33"; on a successful run with no explicit output paths, the written
filenames are built from exactly this formatting. -/
theorem C7_filename_formatting :
    fmtParam (1/2) = "0.5" ∧ fmtParam (4/5) = "0.8" ∧ fmtParam 1 = "1" ∧
    fmtParam (333/1000) = "0.33" ∧
    ∀ (fs : FS) (args : Args),
      fs.isfile args.top = true → fs.isfile args.side_overlay = true →
      fs.isfile args.side_base = true → fs.isfile args.colormap = true →
      (fs.image args.colormap).w = 256 → (fs.image args.colormap).h = 256 →
      args.out_top = none → args.out_side = none →
      (main fs args).2.map Prod.fst =
        ["out/grass_block_top_" ++
           (fmtParam args.temperature ++ "_" ++ fmtParam args.downfall) ++ ".png",
         "out/grass_block_side_" ++
           (fmtParam args.temperature ++ "_" ++ fmtParam args.downfall) ++ ".png"] := by
  refine ⟨fmtParam_half, fmtParam_four_fifths, fmtParam_one, fmtParam_333, ?_⟩
  intro fs args h1 h2 h3 h4 hw hh ht hs
  unfold main
  rw [if_neg (by simp [h1, h2, h3, h4]), if_pos ⟨hw, hh⟩, ht, hs]
  simp

/-- A file system where every path exists and decodes to a 256x256
image. -/
def demoFS : FS := ⟨fun _ => true, fun _ => ⟨256, 256, fun _ _ => ⟨10, 20, 30, 255⟩⟩⟩

/-- Concrete arguments with temperature 0.80 and downfall 1.00 and no
explicit output paths. -/
def demoArgs : Args := ⟨"top.png", "overlay.png", "base.png", "cmap.png", 4/5, 1, none, none⟩

/-- Witness for C7: a run at temperature 0.80, downfall 1.00 writes
`out/grass_block_top_0.8_1.png` and `out/grass_block_side_0.8_1.png`. -/
theorem C7_witness :
    demoFS.isfile demoArgs.colormap = true ∧ demoArgs.out_top = none ∧
    (main demoFS demoArgs).2.map Prod.fst =
      ["out/grass_block_top_0.8_1.png", "out/grass_block_side_0.8_1.png"] := by
  refine ⟨rfl, rfl, ?_⟩
  have h := C7_filename_formatting
  have hmain := h.2.2.2.2 demoFS demoArgs rfl rfl rfl rfl rfl rfl rfl rfl
  rw [hmain]
  have et : demoArgs.temperature = 4/5 := rfl
  have ed : demoArgs.downfall = 1 := rfl
  rw [et, ed, h.2.1, h.2.2.1]
  rfl

end TintGrass
